import Mathlib

/-!
Verification development for the amy MySQL connector headers
(src/include/amy/result_set.hpp, basic_connector.hpp, mysql_service.hpp).

The driver side (`MYSQL*`, `MYSQL_RES*`) is embedded as explicit data: an
environment mapping native handle ids to what the driver reports and yields,
plus an aliveness map playing the role of `std::shared_ptr` ownership, so that
`std::weak_ptr` observation (`lock`, `expired`) is explicit state.
-/

namespace amy

/-- Field descriptor as yielded by the driver (`MYSQL_FIELD*`). Decoding of
name/type/metadata is a collaborator concern (`amy/field_info.hpp`), so the
descriptor is kept opaque: `field_info(f)` wraps the handle content. -/
structure field_info where
  info : Nat
deriving DecidableEq

/-- Modelled from the spec: `amy/row.hpp` is not under src/. Per spec section 4.4 a
row value owns the copied column pointers and lengths and references the
shared field descriptor sequence. -/
structure row where
  columns : List String
  lengths : List Nat
  fields_info : List field_info
deriving DecidableEq

/-- One native driver result (`MYSQL_RES`): what the driver reports to
`mysql_num_rows` and `mysql_num_fields`, the field handles yielded by the
`mysql_fetch_field` loop, the rows yielded by the `mysql_fetch_row` loop
before it returns null, and the error code (if any) set when it returns
null. -/
structure driver_result where
  reported_num_rows : Nat
  reported_num_fields : Nat
  field_handles : List field_info
  fetched_rows : List (List String)
  fetch_error : Option Nat
deriving DecidableEq

/-- The native connection handle (`MYSQL*`) as far as result materialization
reads it: the driver's affected-row counter returned by
`mysql_affected_rows`. -/
structure mysql_conn where
  affected_rows : Nat
deriving DecidableEq

/-- The heap of shared native result objects: which handle ids are still owned
by a live `std::shared_ptr` (`alive`), and the driver result each id
designates. -/
structure env_model where
  alive : Nat → Bool
  results : Nat → driver_result

/-- `std::weak_ptr::lock()`: an empty (default-constructed) or dead weak
reference yields no object. -/
def lock_weak (env : env_model) (w : Option Nat) : Option Nat :=
  match w with
  | none => none
  | some h => if env.alive h then some h else none

/-- The `result_set` state (src/include/amy/result_set.hpp, private members):
scalar counts, the weak reference to the native driver result, the owned row
values, and the shared field descriptor vector (`none` models the null
`std::shared_ptr` left by `reset()`). -/
structure result_set where
  row_count_ : Nat
  affected_rows_ : Nat
  field_count_ : Nat
  result_set_ : Option Nat
  values_ : List row
  fields_info_ : Option (List field_info)
deriving DecidableEq

/-- The default constructor `result_set::result_set()`: zero counts, empty
weak reference, no rows, a fresh empty field descriptor vector. The static
`empty_set()` returns exactly this value. -/
def result_set.empty_set : result_set :=
  { row_count_ := 0
    affected_rows_ := 0
    field_count_ := 0
    result_set_ := none
    values_ := []
    fields_info_ := some [] }

/-- `result_set::assign(mysql, rs, ec)` translated from
src/include/amy/result_set.hpp lines 81-128: return unchanged when no handle;
record the weak reference and `mysql_num_rows`; return when zero rows; fetch
the field descriptors once into a fresh shared vector; fetch the rows,
appending each as a row value holding the column data, the
`mysql_fetch_lengths` lengths and the shared descriptors; if the row-fetch
loop ended with a driver error, zero `row_count_`, clear the rows, release the
field metadata and the weak reference; otherwise read `mysql_affected_rows`.
Returns the new state together with the error code. -/
def result_set.assign (env : env_model) (mysql : mysql_conn)
    (rs : Option Nat) (self : result_set) : result_set × Option Nat :=
  match rs with
  | none => (self, none)
  | some h =>
    let dr := env.results h
    let self1 : result_set :=
      { self with result_set_ := some h, row_count_ := dr.reported_num_rows }
    if dr.reported_num_rows = 0 then
      (self1, none)
    else
      let fi := dr.field_handles
      let self2 : result_set :=
        { self1 with
            field_count_ := dr.reported_num_fields
            fields_info_ := some fi }
      let fetched := dr.fetched_rows.map
        (fun r =>
          ({ columns := r
             lengths := r.map String.length
             fields_info := fi } : row))
      let self3 : result_set := { self2 with values_ := self2.values_ ++ fetched }
      match dr.fetch_error with
      | some e =>
        ({ self3 with
             row_count_ := 0
             values_ := []
             fields_info_ := none
             result_set_ := none }, some e)
      | none =>
        ({ self3 with affected_rows_ := mysql.affected_rows }, none)

/-- `result_set::size()`: lock the weak reference; if the native result is
still alive, re-query `mysql_num_rows` on it, otherwise 0. -/
def result_set.size (env : env_model) (self : result_set) : Nat :=
  match lock_weak env self.result_set_ with
  | some h => (env.results h).reported_num_rows
  | none => 0

/-- `result_set::empty()`: true when the weak reference is dead or `size()`
is zero. -/
def result_set.empty (env : env_model) (self : result_set) : Bool :=
  match lock_weak env self.result_set_ with
  | some _ => decide (self.size env = 0)
  | none => true

/-- `result_set::expired()`: `std::weak_ptr::expired()` on the stored weak
reference — true for a default-constructed (empty) weak reference and for one
whose object has been released. -/
def result_set.expired (env : env_model) (self : result_set) : Bool :=
  match self.result_set_ with
  | none => true
  | some h => !env.alive h

/-- `result_set::field_count()`: the stored `field_count_`. -/
def result_set.field_count (self : result_set) : Nat :=
  self.field_count_

/-- `result_set::affected_rows()`: the stored `affected_rows_`. -/
def result_set.affected_rows (self : result_set) : Nat :=
  self.affected_rows_

/-- The range `begin()` .. `end()`: iteration over the owned `values_`
vector, in storage order. -/
def result_set.to_list (self : result_set) : List row :=
  self.values_

/-- Modelled from the spec: `mysql_service::store_result` lives in the
implementation file, which is not under src/. Per spec section 4.4 it obtains the
driver result handle (or its absence) and materializes a fresh result set
from it; the only public pathway into a populated `result_set` is the default
constructor followed by `assign`, both translated above from src/. -/
def store_result (env : env_model) (mysql : mysql_conn)
    (rs : Option Nat) : result_set × Option Nat :=
  result_set.assign env mysql rs result_set.empty_set

/-- Modelled from the spec: `mysql_service::implementation::close` lives in
the implementation file, which is not under src/. Its declaration comment
says it "closes the connection and revokes result set resource if any", and
spec sections 3 and 9 adopt the weak-relation model: closing releases the
connection's shared ownership of its current native result handle `h`,
destroying that object, so every weak reference to `h` dies. -/
def close_env (env : env_model) (h : Nat) : env_model :=
  { env with alive := fun i => if i = h then false else env.alive i }

/-- What an asynchronous operation's user callback finally receives: the
driver's true outcome, or the cancellation error. -/
inductive completion (α : Type) where
  | value : α → completion α
  | cancellation_error : completion α
deriving DecidableEq

/-- One asynchronous operation run to delivery: whether the blocking driver
call executed on the worker, and the list of callback invocations made. -/
structure async_run (α : Type) where
  driver_call_ran : Bool
  deliveries : List (completion α)
deriving DecidableEq

/-- Modelled from the spec: the bodies of `mysql_service::handler_base` and
the per-operation handlers live in the implementation file, which is not
under src/. The header declares the mechanism — `implementation` holds
`std::shared_ptr<void> cancelation_token`, each handler captures
`std::weak_ptr<void> cancelation_token_` — and spec section 4.2 steps 3-6 give the
protocol: the worker runs the blocking driver call to completion and captures
its outcome, then exactly one completion is posted back; at delivery the
handler locks its captured token and, if the generation is stale, invokes the
user callback with the cancellation error instead of the true outcome. `tok`
is the captured token id; `env` is the token heap at delivery time
(`cancel()`/`close()` having possibly killed `tok` in the interim). -/
def run_async_op (env : env_model) (tok : Nat) (driver_outcome : α) :
    async_run α :=
  { driver_call_ran := true
    deliveries :=
      [if env.alive tok then completion.value driver_outcome
       else completion.cancellation_error] }

/-- A synchronous service surface, abstracting the `mysql_service` bodies in
the implementation file (not under src/): each operation transforms the
implementation state and reports an error code (`none` = success);
`store_result` additionally yields a result set. `ι` is the implementation
state, `ε` the connect parameters (endpoint, auth, database, flags). -/
structure sync_service (ι ε : Type) where
  open_op : ι → ι × Option Nat
  connect_op : ι → ε → ι × Option Nat
  query_op : ι → String → ι × Option Nat
  store_result_op : ι → ι × result_set × Option Nat

/-- Modelled from the spec: `detail::throw_error` (amy/detail/throw_error.hpp,
not under src/): per spec section 7 the synchronous surface "either returns an error
code or raises, caller's choice" — it raises exactly on a nonzero error
code. -/
def throw_error (ec : Option Nat) : Except Nat Unit :=
  match ec with
  | some e => Except.error e
  | none => Except.ok ()

/-- `basic_connector::open(ec)`: delegate to the service. -/
def basic_connector.open_ec (svc : sync_service ι ε) (impl : ι) :
    ι × Option Nat :=
  svc.open_op impl

/-- `basic_connector::open()`: run the error-code variant, then
`throw_error` on its error code. -/
def basic_connector.open_throw (svc : sync_service ι ε) (impl : ι) :
    Except Nat ι :=
  match basic_connector.open_ec svc impl with
  | (impl2, ec) =>
    match throw_error ec with
    | Except.error e => Except.error e
    | Except.ok _ => Except.ok impl2

/-- `basic_connector::connect(endpoint, auth, database, flags, ec)`. -/
def basic_connector.connect_ec (svc : sync_service ι ε) (impl : ι) (args : ε) :
    ι × Option Nat :=
  svc.connect_op impl args

/-- `basic_connector::connect(endpoint, auth, database, flags)`: run the
error-code variant, then `throw_error`. -/
def basic_connector.connect_throw (svc : sync_service ι ε) (impl : ι)
    (args : ε) : Except Nat ι :=
  match basic_connector.connect_ec svc impl args with
  | (impl2, ec) =>
    match throw_error ec with
    | Except.error e => Except.error e
    | Except.ok _ => Except.ok impl2

/-- `basic_connector::query(stmt, ec)`. -/
def basic_connector.query_ec (svc : sync_service ι ε) (impl : ι)
    (stmt : String) : ι × Option Nat :=
  svc.query_op impl stmt

/-- `basic_connector::query(stmt)`: run the error-code variant, then
`throw_error`. -/
def basic_connector.query_throw (svc : sync_service ι ε) (impl : ι)
    (stmt : String) : Except Nat ι :=
  match basic_connector.query_ec svc impl stmt with
  | (impl2, ec) =>
    match throw_error ec with
    | Except.error e => Except.error e
    | Except.ok _ => Except.ok impl2

/-- `basic_connector::store_result(ec)`. -/
def basic_connector.store_result_ec (svc : sync_service ι ε) (impl : ι) :
    ι × result_set × Option Nat :=
  svc.store_result_op impl

/-- `basic_connector::store_result()`: obtain the result set from the
error-code variant, `throw_error` on its error code, and return the same
result set on success. -/
def basic_connector.store_result_throw (svc : sync_service ι ε) (impl : ι) :
    Except Nat (ι × result_set) :=
  match basic_connector.store_result_ec svc impl with
  | (impl2, rs, ec) =>
    match throw_error ec with
    | Except.error e => Except.error e
    | Except.ok _ => Except.ok (impl2, rs)

/-! Concrete driver fixtures used by the witness theorems. -/

/-- A driver result of 3 rows and 2 fields whose row-fetch loop succeeds. -/
def dr_ok : driver_result :=
  { reported_num_rows := 3
    reported_num_fields := 2
    field_handles := [{ info := 10 }, { info := 11 }]
    fetched_rows := [["a", "b"], ["c", "d"], ["e", "f"]]
    fetch_error := none }

/-- A driver result whose row-fetch loop fails with driver error 1146 after
one row. -/
def dr_err : driver_result :=
  { reported_num_rows := 2
    reported_num_fields := 1
    field_handles := [{ info := 10 }]
    fetched_rows := [["a"]]
    fetch_error := some 1146 }

/-- A field-bearing driver result reporting zero rows. -/
def dr_zero : driver_result :=
  { reported_num_rows := 0
    reported_num_fields := 2
    field_handles := [{ info := 10 }, { info := 11 }]
    fetched_rows := []
    fetch_error := none }

/-- An environment whose handle 0 is the successful 3-row result, handle 1
the failing result and handle 2 the zero-row result; all handles alive. -/
def env0 : env_model :=
  { alive := fun _ => true
    results := fun h =>
      if h = 0 then dr_ok else if h = 1 then dr_err else dr_zero }

/-- A connection whose driver-side affected-row counter reads 5. -/
def conn5 : mysql_conn :=
  { affected_rows := 5 }

/-- Projecting the columns back out of the row values materialized by the
fetch loop recovers the driver's row sequence. -/
theorem map_row_columns (fi : List field_info) (l : List (List String)) :
    List.map
      ((fun v => v.columns) ∘ fun r =>
        ({ columns := r
           lengths := r.map String.length
           fields_info := fi } : row)) l = l := by
  induction l with
  | nil => rfl
  | cons a t ih => simp_all [Function.comp]

/-! Claim theorems. -/

/-- Claim C1: if the row-fetch loop of `result_set::assign` reports a driver
error during materialization, everything fetched so far is discarded — the
rows vector is cleared, the field metadata is released, the weak reference to
the native result handle is released, `row_count_` is reset to 0 — the driver
error is returned, and no partial rows are observable afterwards: in every
environment the iteration range is empty and `size()` is 0. -/
theorem assign_fetch_error_discards_all (env env2 : env_model)
    (mysql : mysql_conn) (h : Nat) (self : result_set) (e : Nat)
    (hrows : (env.results h).reported_num_rows ≠ 0)
    (herr : (env.results h).fetch_error = some e) :
    (result_set.assign env mysql (some h) self).2 = some e ∧
    (result_set.assign env mysql (some h) self).1.values_ = [] ∧
    (result_set.assign env mysql (some h) self).1.fields_info_ = none ∧
    (result_set.assign env mysql (some h) self).1.result_set_ = none ∧
    (result_set.assign env mysql (some h) self).1.row_count_ = 0 ∧
    (result_set.assign env mysql (some h) self).1.to_list = [] ∧
    (result_set.assign env mysql (some h) self).1.size env2 = 0 := by
  simp [result_set.assign, hrows, herr, result_set.to_list, result_set.size,
    lock_weak]

/-- Witness for C1 at handle 1 of the concrete environment. -/
theorem assign_fetch_error_discards_all_witness :
    (env0.results 1).reported_num_rows ≠ 0 ∧
    (env0.results 1).fetch_error = some 1146 ∧
    ((result_set.assign env0 conn5 (some 1) result_set.empty_set).2 =
        some 1146 ∧
      (result_set.assign env0 conn5 (some 1) result_set.empty_set).1.values_ =
        [] ∧
      (result_set.assign env0 conn5
          (some 1) result_set.empty_set).1.fields_info_ = none ∧
      (result_set.assign env0 conn5
          (some 1) result_set.empty_set).1.result_set_ = none ∧
      (result_set.assign env0 conn5
          (some 1) result_set.empty_set).1.row_count_ = 0 ∧
      (result_set.assign env0 conn5 (some 1) result_set.empty_set).1.to_list =
        [] ∧
      (result_set.assign env0 conn5 (some 1) result_set.empty_set).1.size
          env0 = 0) :=
  ⟨by decide, by decide,
    assign_fetch_error_discards_all env0 env0 conn5 1 result_set.empty_set
      1146 (by decide) (by decide)⟩

/-- Counterexample to claim C2 as stated: with no driver result handle and no
driver error, but a driver-side affected-row counter of 5, the produced
result set reports `affected_rows() = 0`, not the driver count — `assign`
returns before ever reading `mysql_affected_rows` on the no-handle path. -/
theorem store_result_no_handle_affected_rows_counterexample :
    ¬ ((store_result env0 conn5 none).1.affected_rows =
        conn5.affected_rows) := by
  decide

/-- Claim C2, amended: when `store_result` is given no driver result handle
and no driver error, the produced result set is empty — `field_count() = 0`,
`row_count_ = 0`, no rows, `size() = 0` and `empty()` in every environment —
and its `affected_rows()` is 0, the constructor default, regardless of the
driver's affected-row counter (which `assign` never reads on this path). -/
theorem store_result_no_handle_empty (env env2 : env_model)
    (mysql : mysql_conn) :
    (store_result env mysql none).2 = none ∧
    (store_result env mysql none).1.field_count = 0 ∧
    (store_result env mysql none).1.row_count_ = 0 ∧
    (store_result env mysql none).1.values_ = [] ∧
    (store_result env mysql none).1.size env2 = 0 ∧
    (store_result env mysql none).1.empty env2 = true ∧
    (store_result env mysql none).1.affected_rows = 0 := by
  simp [store_result, result_set.assign, result_set.empty_set,
    result_set.field_count, result_set.size, result_set.empty,
    result_set.affected_rows, lock_weak]

/-- Claim C3: after `close()` on the connection — which releases the shared
ownership of its current native result handle `h` — every result set
previously obtained from that connection (its weak reference is empty, or
points to `h`, or points to an earlier handle that is already dead) reports
`expired() = true` and `size() = 0`. -/
theorem close_expires_prior_result_sets (env : env_model) (h hid : Nat)
    (self : result_set)
    (hobt : self.result_set_ = none ∨
      (self.result_set_ = some hid ∧ (hid = h ∨ env.alive hid = false))) :
    self.expired (close_env env h) = true ∧
    self.size (close_env env h) = 0 := by
  rcases hobt with hnone | ⟨hsome, hcase⟩
  · simp [result_set.expired, result_set.size, lock_weak, hnone]
  · rcases hcase with rfl | hdead
    · simp [result_set.expired, result_set.size, lock_weak, hsome, close_env]
    · by_cases hh : hid = h <;>
        simp [result_set.expired, result_set.size, lock_weak, hsome,
          close_env, hh, hdead]

/-- Witness for C3: the result set stored from handle 0 expires once the
connection closes. -/
theorem close_expires_prior_result_sets_witness :
    ((store_result env0 conn5 (some 0)).1.result_set_ = none ∨
      ((store_result env0 conn5 (some 0)).1.result_set_ = some 0 ∧
        (0 = 0 ∨ env0.alive 0 = false))) ∧
    ((store_result env0 conn5 (some 0)).1.expired (close_env env0 0) = true ∧
      (store_result env0 conn5 (some 0)).1.size (close_env env0 0) = 0) :=
  ⟨Or.inr ⟨by decide, Or.inl rfl⟩,
    close_expires_prior_result_sets env0 0 0
      (store_result env0 conn5 (some 0)).1 (Or.inr ⟨by decide, Or.inl rfl⟩)⟩

/-- An environment in which every cancellation token has been invalidated
(as after `cancel()`/`close()`). -/
def env_dead : env_model :=
  { alive := fun _ => false
    results := fun _ => dr_ok }

/-- Claim C4: an asynchronous operation whose captured cancellation token is
stale at delivery time still invokes the user callback — exactly once — but
with the cancellation error instead of the driver's true outcome; the stale
completion is not dropped, and the blocking driver call itself ran to
completion regardless. -/
theorem stale_completion_still_delivered {α : Type} (env : env_model)
    (tok : Nat) (r : α) (hstale : env.alive tok = false) :
    (run_async_op env tok r).driver_call_ran = true ∧
    (run_async_op env tok r).deliveries.length = 1 ∧
    (run_async_op env tok r).deliveries =
      [completion.cancellation_error] := by
  simp [run_async_op, hstale]

/-- Witness for C4 in the all-cancelled environment. -/
theorem stale_completion_still_delivered_witness :
    env_dead.alive 0 = false ∧
    ((run_async_op env_dead 0 (42 : Nat)).driver_call_ran = true ∧
      (run_async_op env_dead 0 (42 : Nat)).deliveries.length = 1 ∧
      (run_async_op env_dead 0 (42 : Nat)).deliveries =
        [completion.cancellation_error]) :=
  ⟨rfl, stale_completion_still_delivered env_dead 0 (42 : Nat) rfl⟩

/-- Claim C5: for a successfully stored result of `n` rows (`n ≠ 0`) and `m`
fields, while the result is not expired, `size()` is `n`, iterating `begin()`
to `end()` produces exactly the `n` rows in the order the server returned
them, `field_count()` is `m`, and every row value has exactly `m` columns and
references the shared field descriptor sequence. -/
theorem stored_result_materializes_rows (env : env_model)
    (mysql : mysql_conn) (h n m : Nat)
    (hn : (env.results h).reported_num_rows = n)
    (hn1 : n ≠ 0)
    (hlen : (env.results h).fetched_rows.length = n)
    (hfe : (env.results h).fetch_error = none)
    (hm : (env.results h).reported_num_fields = m)
    (hcols : ∀ r ∈ (env.results h).fetched_rows, r.length = m)
    (halive : env.alive h = true) :
    (store_result env mysql (some h)).2 = none ∧
    (store_result env mysql (some h)).1.size env = n ∧
    (store_result env mysql (some h)).1.to_list.length = n ∧
    (store_result env mysql (some h)).1.to_list.map (fun v => v.columns) =
      (env.results h).fetched_rows ∧
    (store_result env mysql (some h)).1.field_count = m ∧
    (∀ v ∈ (store_result env mysql (some h)).1.to_list,
      v.columns.length = m ∧
      some v.fields_info =
        (store_result env mysql (some h)).1.fields_info_) := by
  have hne : ¬ ((env.results h).reported_num_rows = 0) := by
    rw [hn]; exact hn1
  refine ⟨?_, ?_, ?_, ?_, ?_, ?_⟩ <;>
    simp [store_result, result_set.assign, result_set.empty_set, hne, hfe,
      result_set.size, result_set.to_list, result_set.field_count, lock_weak,
      halive, hn, hn1, hm, hlen, map_row_columns, hcols]
  exact hcols

/-- Witness for C5: 3 rows, 2 fields at handle 0. -/
theorem stored_result_materializes_rows_witness :
    (env0.results 0).reported_num_rows = 3 ∧
    (3 : Nat) ≠ 0 ∧
    (env0.results 0).fetched_rows.length = 3 ∧
    (env0.results 0).fetch_error = none ∧
    (env0.results 0).reported_num_fields = 2 ∧
    (∀ r ∈ (env0.results 0).fetched_rows, r.length = 2) ∧
    env0.alive 0 = true ∧
    ((store_result env0 conn5 (some 0)).2 = none ∧
      (store_result env0 conn5 (some 0)).1.size env0 = 3 ∧
      (store_result env0 conn5 (some 0)).1.to_list.length = 3 ∧
      (store_result env0 conn5 (some 0)).1.to_list.map (fun v => v.columns) =
        (env0.results 0).fetched_rows ∧
      (store_result env0 conn5 (some 0)).1.field_count = 2 ∧
      (∀ v ∈ (store_result env0 conn5 (some 0)).1.to_list,
        v.columns.length = 2 ∧
        some v.fields_info =
          (store_result env0 conn5 (some 0)).1.fields_info_)) :=
  ⟨by decide, by decide, by decide, by decide, by decide, by decide,
    by decide,
    stored_result_materializes_rows env0 conn5 0 3 2 (by decide) (by decide)
      (by decide) (by decide) (by decide) (by decide) (by decide)⟩

/-- Claim C6: when `store_result` is given a driver result handle reporting
zero rows, the result set is empty — no rows, `row_count_ = 0`, `size() = 0`,
`empty()` — and no field metadata is populated: `field_count() = 0` and the
field descriptor sequence is left as the constructor's fresh empty vector,
never fetched. -/
theorem zero_row_result_no_field_metadata (env : env_model)
    (mysql : mysql_conn) (h : Nat)
    (hzero : (env.results h).reported_num_rows = 0) :
    (store_result env mysql (some h)).2 = none ∧
    (store_result env mysql (some h)).1.field_count = 0 ∧
    (store_result env mysql (some h)).1.fields_info_ = some [] ∧
    (store_result env mysql (some h)).1.values_ = [] ∧
    (store_result env mysql (some h)).1.row_count_ = 0 ∧
    (store_result env mysql (some h)).1.size env = 0 ∧
    (store_result env mysql (some h)).1.empty env = true := by
  by_cases halive : env.alive h <;>
    simp [store_result, result_set.assign, hzero, result_set.empty_set,
      result_set.field_count, result_set.size, result_set.empty, lock_weak,
      halive]

/-- Witness for C6 at the zero-row, field-bearing handle 2. -/
theorem zero_row_result_no_field_metadata_witness :
    (env0.results 2).reported_num_rows = 0 ∧
    ((store_result env0 conn5 (some 2)).2 = none ∧
      (store_result env0 conn5 (some 2)).1.field_count = 0 ∧
      (store_result env0 conn5 (some 2)).1.fields_info_ = some [] ∧
      (store_result env0 conn5 (some 2)).1.values_ = [] ∧
      (store_result env0 conn5 (some 2)).1.row_count_ = 0 ∧
      (store_result env0 conn5 (some 2)).1.size env0 = 0 ∧
      (store_result env0 conn5 (some 2)).1.empty env0 = true) :=
  ⟨by decide,
    zero_row_result_no_field_metadata env0 conn5 2 (by decide)⟩

/-- Counterexample to claim C7 as stated: a result set just created by
`store_result` with no driver handle (a mutation) reports `expired() = true`
immediately, although the owning connection has neither fetched a subsequent
result nor closed — its weak reference was default-constructed and never
assigned. -/
theorem result_set_no_handle_expired_at_creation :
    ¬ ((store_result env0 conn5 none).1.expired env0 = false) := by
  decide

/-- Claim C7, amended: a result set created by `store_result` from a present
driver handle, without a row-fetch error, holds a weak reference to that
handle; it reports `expired() = false` while the connection retains the
handle, `expired() = true` after `close()` releases it, and in any
environment its expiry equals exactly the handle's death. A result set
produced with no driver handle is expired from the moment of creation. -/
theorem result_set_expiry_tracks_handle (env env2 : env_model)
    (mysql : mysql_conn) (h : Nat)
    (hfe : (env.results h).fetch_error = none)
    (halive : env.alive h = true) :
    (store_result env mysql (some h)).1.result_set_ = some h ∧
    (store_result env mysql (some h)).1.expired env = false ∧
    (store_result env mysql (some h)).1.expired (close_env env h) = true ∧
    (store_result env mysql (some h)).1.expired env2 = !env2.alive h := by
  by_cases hz : (env.results h).reported_num_rows = 0 <;>
    simp [store_result, result_set.assign, hz, hfe, result_set.expired,
      close_env, halive]

/-- Witness for C7's amended statement at handle 0. -/
theorem result_set_expiry_tracks_handle_witness :
    (env0.results 0).fetch_error = none ∧
    env0.alive 0 = true ∧
    ((store_result env0 conn5 (some 0)).1.result_set_ = some 0 ∧
      (store_result env0 conn5 (some 0)).1.expired env0 = false ∧
      (store_result env0 conn5 (some 0)).1.expired (close_env env0 0) =
        true ∧
      (store_result env0 conn5 (some 0)).1.expired env_dead =
        !env_dead.alive 0) :=
  ⟨by decide, by decide,
    result_set_expiry_tracks_handle env0 env_dead conn5 0 (by decide)
      (by decide)⟩

/-- Claim C10: a result set that held rows and has since expired reports
`size() = 0` and `empty() = true`, yet the `begin()`/`end()` range still
yields the previously materialized row values — its length stays the original
row count — so `size()` and the iterator distance disagree after expiry. -/
theorem expired_result_keeps_materialized_rows (env env2 : env_model)
    (mysql : mysql_conn) (h : Nat)
    (hn1 : (env.results h).reported_num_rows ≠ 0)
    (hfe : (env.results h).fetch_error = none)
    (hne : (env.results h).fetched_rows ≠ [])
    (hdead : env2.alive h = false) :
    (store_result env mysql (some h)).1.size env2 = 0 ∧
    (store_result env mysql (some h)).1.empty env2 = true ∧
    (store_result env mysql (some h)).1.to_list.map (fun v => v.columns) =
      (env.results h).fetched_rows ∧
    (store_result env mysql (some h)).1.to_list.length =
      (env.results h).fetched_rows.length ∧
    (store_result env mysql (some h)).1.to_list.length ≠
      (store_result env mysql (some h)).1.size env2 := by
  refine ⟨?_, ?_, ?_, ?_, ?_⟩ <;>
    simp [store_result, result_set.assign, result_set.empty_set, hn1, hfe,
      result_set.size, result_set.empty, result_set.to_list, lock_weak,
      hdead, map_row_columns, hne]

/-- Witness for C10: handle 0's rows survive expiry of the native handle. -/
theorem expired_result_keeps_materialized_rows_witness :
    (env0.results 0).reported_num_rows ≠ 0 ∧
    (env0.results 0).fetch_error = none ∧
    (env0.results 0).fetched_rows ≠ [] ∧
    env_dead.alive 0 = false ∧
    ((store_result env0 conn5 (some 0)).1.size env_dead = 0 ∧
      (store_result env0 conn5 (some 0)).1.empty env_dead = true ∧
      (store_result env0 conn5 (some 0)).1.to_list.map (fun v => v.columns) =
        (env0.results 0).fetched_rows ∧
      (store_result env0 conn5 (some 0)).1.to_list.length =
        (env0.results 0).fetched_rows.length ∧
      (store_result env0 conn5 (some 0)).1.to_list.length ≠
        (store_result env0 conn5 (some 0)).1.size env_dead) :=
  ⟨by decide, by decide, by decide, by decide,
    expired_result_keeps_materialized_rows env0 env_dead conn5 0 (by decide)
      (by decide) (by decide) (by decide)⟩

/-- Claim C8: for each synchronous operation of `basic_connector` — open,
connect, query, store_result — the throwing variant raises an error `e`
exactly when the error-code variant reports `some e` on the same inputs, and
it returns the error-code variant's result (the same implementation state,
and for `store_result` the same result set) exactly when the error-code
variant reports no error: the two surfaces are interchangeable. -/
theorem sync_surfaces_agree {ι ε : Type} (svc : sync_service ι ε) (impl : ι)
    (args : ε) (stmt : String) (e : Nat) :
    ((basic_connector.open_throw svc impl = Except.error e) ↔
      (basic_connector.open_ec svc impl).2 = some e) ∧
    ((basic_connector.open_throw svc impl =
        Except.ok (basic_connector.open_ec svc impl).1) ↔
      (basic_connector.open_ec svc impl).2 = none) ∧
    ((basic_connector.connect_throw svc impl args = Except.error e) ↔
      (basic_connector.connect_ec svc impl args).2 = some e) ∧
    ((basic_connector.connect_throw svc impl args =
        Except.ok (basic_connector.connect_ec svc impl args).1) ↔
      (basic_connector.connect_ec svc impl args).2 = none) ∧
    ((basic_connector.query_throw svc impl stmt = Except.error e) ↔
      (basic_connector.query_ec svc impl stmt).2 = some e) ∧
    ((basic_connector.query_throw svc impl stmt =
        Except.ok (basic_connector.query_ec svc impl stmt).1) ↔
      (basic_connector.query_ec svc impl stmt).2 = none) ∧
    ((basic_connector.store_result_throw svc impl = Except.error e) ↔
      (basic_connector.store_result_ec svc impl).2.2 = some e) ∧
    ((basic_connector.store_result_throw svc impl =
        Except.ok ((basic_connector.store_result_ec svc impl).1,
          (basic_connector.store_result_ec svc impl).2.1)) ↔
      (basic_connector.store_result_ec svc impl).2.2 = none) := by
  refine ⟨?_, ?_, ?_, ?_, ?_, ?_, ?_, ?_⟩
  · rcases hop : svc.open_op impl with ⟨i2, ec⟩
    cases ec <;>
      simp [basic_connector.open_throw, basic_connector.open_ec, hop,
        throw_error]
  · rcases hop : svc.open_op impl with ⟨i2, ec⟩
    cases ec <;>
      simp [basic_connector.open_throw, basic_connector.open_ec, hop,
        throw_error]
  · rcases hop : svc.connect_op impl args with ⟨i2, ec⟩
    cases ec <;>
      simp [basic_connector.connect_throw, basic_connector.connect_ec, hop,
        throw_error]
  · rcases hop : svc.connect_op impl args with ⟨i2, ec⟩
    cases ec <;>
      simp [basic_connector.connect_throw, basic_connector.connect_ec, hop,
        throw_error]
  · rcases hop : svc.query_op impl stmt with ⟨i2, ec⟩
    cases ec <;>
      simp [basic_connector.query_throw, basic_connector.query_ec, hop,
        throw_error]
  · rcases hop : svc.query_op impl stmt with ⟨i2, ec⟩
    cases ec <;>
      simp [basic_connector.query_throw, basic_connector.query_ec, hop,
        throw_error]
  · rcases hop : svc.store_result_op impl with ⟨i2, rs, ec⟩
    cases ec <;>
      simp [basic_connector.store_result_throw,
        basic_connector.store_result_ec, hop, throw_error]
  · rcases hop : svc.store_result_op impl with ⟨i2, rs, ec⟩
    cases ec <;>
      simp [basic_connector.store_result_throw,
        basic_connector.store_result_ec, hop, throw_error]

end amy
